import Mathlib

/-!
Shallow embedding of `src/snake.py`: the snake body and its movement, the
directional input latch, the score counter with its persisted high-score
store, food placement, and one tick of the game loop, together with the
theorems settling claims C1 to C10.

Modelling conventions, justified once here:

* Every coordinate this program ever produces is an integer: the snake starts
  at `(0, 100)` and moves in steps of `20`, and the food teleports to
  `randint` results.  Positions are therefore `Int × Int`.
* `turtle.distance(p, q) < c` with integer inputs and a small integer `c`
  holds iff the squared distance is `< c * c`: the square root is correctly
  rounded and `c` (15, 20, 25) and `c * c` are exactly representable, so no
  double rounding can cross the threshold.  The embedding compares squared
  distances.
* The file `high_score.txt` is modelled as `Option String`: `none` is a
  missing file, `some s` a file with contents `s`.  Reading the store is
  Python's `int(float(contents))`; its behaviour on the optional-sign
  decimal integer strings this program itself writes (via `str(int)`) is
  modelled exactly, including the rounding of `float` to 53 significant bits
  (round to nearest, ties to even) and the overflow of `int(inf)`.  Every
  other file content is modelled as `ValueError`; the claims only exercise a
  missing file, non-numeric text and decimal integer contents.
* Python exceptions are modelled as `Except PyError`.
* `random.randint` is an external collaborator; it is modelled by oracle
  arguments, and its range contract `-(limit) ≤ r ≤ limit` appears as a
  hypothesis where a theorem needs it.
* Rendering calls (`goto`, `hideturtle`, `write`, `update`, …) move pixels
  only; the game state they carry (each turtle's position) is kept, the rest
  is dropped.  `sleep` has no state effect.
-/

/-- Direction strings used by the source: `"up"`, `"down"`, `"left"`,
`"right"`, `"stop"`. -/
inductive Direction where
  | up | down | left | right | stop
deriving DecidableEq, Repr

/-- Python exceptions that the modelled code can raise. -/
inductive PyError where
  | fileNotFoundError | valueError | overflowError | attributeError | indexError
deriving DecidableEq, Repr

deriving instance DecidableEq for Except

/-- A position on the board (turtle coordinates, integral throughout). -/
abbrev Pos := Int × Int

/-- Squared Euclidean distance; compared against squared thresholds, which for
the integer coordinates of this program is equivalent to the source's
`a.distance(b) < c` checks. -/
def distSq (p q : Pos) : Int :=
  (p.1 - q.1) * (p.1 - q.1) + (p.2 - q.2) * (p.2 - q.2)

/-- `SnakePart.__init__`: a square turtle at `(x_pos, y_pos)`.  Its
`direction` attribute is written once (`"stop"`) and never read, and the
rest is drawing state; only the position is game state. -/
structure SnakePart where
  pos : Pos
deriving DecidableEq, Repr

/-- `Snake.__init__`: a list of parts holding one part at `(0, 100)`, plus
the latched `direction` attribute, initially `"stop"`. -/
structure Snake where
  parts : List SnakePart
  direction : Direction
deriving DecidableEq, Repr

def Snake.init : Snake :=
  { parts := [{ pos := (0, 100) }], direction := .stop }

/-- `Snake.add_part`: `self.insert(0, SnakePart(x_pos, y_pos))`. -/
def Snake.add_part (s : Snake) (x_pos y_pos : Int) : Snake :=
  { s with parts := { pos := (x_pos, y_pos) } :: s.parts }

/-- Python list indexing: a negative index counts from the end; an index out
of range after that normalisation raises `IndexError` (`none` here). -/
def pyIndex (len : Nat) (i : Int) : Option Nat :=
  let j : Int := if i < 0 then i + len else i
  if 0 ≤ j ∧ j < len then some j.toNat else none

/-- `Snake.delete_part`: `self[index].hideturtle(); self.pop(index)`.  Both
the lookup and the pop raise `IndexError` for an out-of-range index. -/
def Snake.delete_part (s : Snake) (i : Int) : Option Snake :=
  match pyIndex s.parts.length i with
  | some j => some { s with parts := s.parts.eraseIdx j }
  | none => none

/-- The loop in `Snake.reset`: `for part in range(1, len(self)):` with
`try: self.delete_part(part) except IndexError: pass`.  The range is fixed
up front while the list keeps shrinking, so later indices may fall out of
range and get swallowed. -/
def resetLoop : List Nat → Snake → Snake
  | [], s => s
  | p :: rest, s =>
    resetLoop rest
      (match s.delete_part (p : Int) with
       | some t => t
       | none => s)

/-- `Snake.reset`: run the deletion loop, then `self[0].goto(0, 100)` (an
`IndexError` if the list is empty) and `self.direction = "stop"`. -/
def Snake.reset (s : Snake) : Option Snake :=
  let t := resetLoop (List.range' 1 (s.parts.length - 1)) s
  match t.parts with
  | [] => none
  | _ :: tl => some { parts := { pos := (0, 100) } :: tl, direction := .stop }

/-- `Snake.move`: read the head's coordinates (`self[0]`, an `IndexError` on
an empty body), shift them one step of 20 along `self.direction` (no shift
for `"stop"`), then `add_part` at the new spot and `delete_part(-1)`. -/
def Snake.move (s : Snake) : Option Snake :=
  match s.parts with
  | [] => none
  | head :: _ =>
    let x_pos := head.pos.1
    let y_pos := head.pos.2
    let p : Pos :=
      if s.direction = .up then (x_pos, y_pos + 20)
      else if s.direction = .down then (x_pos, y_pos - 20)
      else if s.direction = .right then (x_pos + 20, y_pos)
      else if s.direction = .left then (x_pos - 20, y_pos)
      else (x_pos, y_pos)
    (s.add_part p.1 p.2).delete_part (-1)

/-- `Snake.go_up`: `if self.direction != "down": self.direction = "up"`. -/
def Snake.go_up (s : Snake) : Snake :=
  if s.direction ≠ .down then { s with direction := .up } else s

/-- `Snake.go_down`: `if self.direction != "up": self.direction = "down"`. -/
def Snake.go_down (s : Snake) : Snake :=
  if s.direction ≠ .up then { s with direction := .down } else s

/-- `Snake.go_right`: `if self.direction != "left": self.direction = "right"`. -/
def Snake.go_right (s : Snake) : Snake :=
  if s.direction ≠ .left then { s with direction := .right } else s

/-- `Snake.go_left`: `if self.direction != "right": self.direction = "left"`. -/
def Snake.go_left (s : Snake) : Snake :=
  if s.direction ≠ .right then { s with direction := .left } else s

/-- Little-endian base-10 digits, with explicit fuel so that the definition
is structural (kernel-reducible); fuel `n` always suffices for `n`. -/
def natDigitsRev : Nat → Nat → List Nat
  | 0, _ => []
  | fuel + 1, n => if n = 0 then [] else n % 10 :: natDigitsRev fuel (n / 10)

/-- Python `str` of a natural number: its decimal digits, `"0"` for zero. -/
def natToDec (n : Nat) : String :=
  if n = 0 then "0"
  else ⟨(natDigitsRev n n).reverse.map fun d => Char.ofNat (48 + d)⟩

/-- Python `str` of an `int`: decimal digits with a leading `-` when
negative. -/
def intToDec : Int → String
  | .ofNat n => natToDec n
  | .negSucc m => ⟨'-' :: (natToDec (m + 1)).data⟩

/-- Strip one optional leading minus sign, reporting whether one was there. -/
def splitSign (l : List Char) : Bool × List Char :=
  match l with
  | c :: rest => if c = '-' then (true, rest) else (false, c :: rest)
  | [] => (false, [])

/-- Parse a nonempty all-digit character list as a natural number; anything
else is a malformed numeral (`ValueError` at the caller). -/
def decToNatList? (l : List Char) : Option Nat :=
  if l.isEmpty then none
  else if l.all Char.isDigit then
    some (l.foldl (fun n c => n * 10 + (c.toNat - 48)) 0)
  else none

/-- Halvings needed to bring `m` under `2 ^ 53` (the bit length beyond 53
significant bits), with structural fuel; fuel `m` always suffices. -/
def shiftAmt : Nat → Nat → Nat
  | 0, _ => 0
  | fuel + 1, m => if m < 2 ^ 53 then 0 else shiftAmt fuel (m / 2) + 1

/-- The integer value of the IEEE-754 double nearest to `n` (round to
nearest, ties to even): exact below `2 ^ 53`, otherwise `n` rounded to 53
significant bits. -/
def roundHalfEven (n : Nat) : Nat :=
  let k := shiftAmt n n
  if k = 0 then n
  else
    let q := n / 2 ^ k
    let r := n % 2 ^ k
    let half := 2 ^ (k - 1)
    if half < r ∨ (r = half ∧ q % 2 = 1) then (q + 1) * 2 ^ k else q * 2 ^ k

/-- The value `2 ^ 1024`, written as a numeral so that the kernel can
compare against it without unfolding a 1024-step power; certified by
`floatOverflowBound_eq` below.  Doubles overflow to infinity exactly when
rounding to nearest reaches this value. -/
def floatOverflowBound : Nat :=
  179769313486231590772930519078902473361797697894230657273430081157732675805500963132708477322407536021120113879871393357658789768814416622492847430639474124377767893424865485276302219601246094119453082952085005768838150682342462881473913110540827237163350510684586298239947245938479716304835356329624224137216

theorem floatOverflowBound_eq : floatOverflowBound = 2 ^ 1024 := by
  norm_num [floatOverflowBound]

/-- Python `int(float(s))` for a decimal numeral of magnitude `n`: `float`
rounds to the nearest double (`inf`, hence `OverflowError` in `int`, when
that rounding reaches `2 ^ 1024`). -/
def pyFloatReadNat (n : Nat) : Except PyError Nat :=
  let v := roundHalfEven n
  if floatOverflowBound ≤ v then .error .overflowError else .ok v

/-- Python `int(float(s))` on the string contents of the high-score store:
an optional sign followed by decimal digits, read through double-precision
`float`; any other content raises `ValueError`. -/
def pyParseIntFloat (s : String) : Except PyError Int :=
  match splitSign s.data with
  | (neg, ds) =>
    match decToNatList? ds with
    | some n =>
      match pyFloatReadNat n with
      | .ok v => .ok (if neg then -(v : Int) else (v : Int))
      | .error e => .error e
    | none => .error .valueError

/-- `ScoreCounter`: the in-memory `self.score`.  The font, position and
drawing state are rendering only. -/
structure ScoreCounter where
  score : Int
deriving DecidableEq, Repr

/-- `ScoreCounter.get_high_score`: `int(float(open('high_score.txt').read()))`.
A missing file raises `FileNotFoundError`; unparsable contents raise
`ValueError`. -/
def ScoreCounter.get_high_score (store : Option String) : Except PyError Int :=
  match store with
  | none => .error .fileNotFoundError
  | some contents => pyParseIntFloat contents

/-- `ScoreCounter.set_high_score`: overwrite the store with
`str(high_score)`. -/
def ScoreCounter.set_high_score (high_score : Int) : Option String :=
  some (intToDec high_score)

/-- `ScoreCounter.change_score`: re-read the store, add `score_change` to the
in-memory score, and overwrite the store when the new score exceeds the
value just read. -/
def ScoreCounter.change_score (sc : ScoreCounter) (store : Option String)
    (score_change : Int) : Except PyError (ScoreCounter × Option String) :=
  match ScoreCounter.get_high_score store with
  | .error e => .error e
  | .ok high_score =>
    let score := sc.score + score_change
    if high_score < score then
      .ok ({ score := score }, ScoreCounter.set_high_score score)
    else
      .ok ({ score := score }, store)

/-- `ScoreCounter.write_score`: reads `self.score` and the store, then only
draws text.  Its sole game-state relevance is that the store read can
raise. -/
def ScoreCounter.write_score (store : Option String) : Except PyError Unit :=
  match ScoreCounter.get_high_score store with
  | .ok _ => .ok ()
  | .error e => .error e

/-- `Food.teleport`: `self.goto(randint(-(x_limit), x_limit),
randint(-(y_limit), y_limit))`.  The two `randint` draws are the oracle
arguments `rx`, `ry`; their range contract is a hypothesis where needed. -/
def Food.teleport (x_limit y_limit rx ry : Int) : Pos :=
  (rx, ry)

/-- `Board`: the window plus the elements not controlled by the user.  Its
attributes are the food (a turtle at `(0, 0)` initially), the score counter,
and the window dimensions.  The class defines no attribute `score`. -/
structure Board where
  food : Pos
  score_counter : ScoreCounter
  width : Int
  height : Int
deriving DecidableEq, Repr

/-- `Game`: the board, the snake, and `self.score` (set to `0` in
`__init__` and never read again by `run` or `game_over`). -/
structure Game where
  board : Board
  snake : Snake
  score : Int
deriving DecidableEq, Repr

/-- `Game.game_over`: `sleep(1)`, `self.snake.reset()` (an `IndexError` if
the body is empty), then `self.board.score_counter.change_score(-(self.board.score))`.
Class `Board` defines no attribute `score` (the current score lives at
`self.board.score_counter.score`, and `Game.__init__` puts a `score` on the
`Game`), so the argument lookup raises `AttributeError` and neither the
score change nor `self.board.food.goto(0, 0)` is reached. -/
def Game.game_over (g : Game) (store : Option String) :
    Except PyError (Game × Option String) :=
  match g.snake.reset with
  | none => .error .indexError
  | some _ => .error .attributeError

/-- The food-consumption step of the loop body: `if head.distance(food) < 15`
then `change_score(10)`, `add_part` at the food's coordinates, and
`teleport(x_limit - 20, y_limit - 20)`. -/
def foodPhase (sc : ScoreCounter) (store : Option String) (snake : Snake)
    (food head : Pos) (x_limit y_limit rx ry : Int) :
    Except PyError (ScoreCounter × Option String × Snake × Pos) :=
  if distSq head food < 15 * 15 then
    match ScoreCounter.change_score sc store 10 with
    | .error e => .error e
    | .ok (sc', store') =>
      .ok (sc', store', snake.add_part food.1 food.2,
           Food.teleport (x_limit - 20) (y_limit - 20) rx ry)
  else
    .ok (sc, store, snake, food)

/-- The self-collision scan of the loop body:
`for part in range(3, len(snake)):` testing `snake[part].distance(head) < 25`.
All scanned indices are in range here, so the `except IndexError` guard
never fires before the first hit. -/
def selfCollisionHit (parts : List SnakePart) (head : Pos) : Bool :=
  (List.range' 3 (parts.length - 3)).any fun i =>
    match parts[i]? with
    | some p => decide (distSq p.pos head < 25 * 25)
    | none => false

/-- One iteration of the `while True` loop in `Game.run`: `update()` and
`write_score()` (which re-reads the store), `snake.move()`, `sleep(delay)`,
`head = snake[0]`, the food test, the self-collision scan, and the boundary
test, where `x_limit = window_width() / 2 - 10` and likewise for `y`.  A
triggered terminal condition calls `game_over`. -/
def Game.tick (g : Game) (store : Option String) (rx ry : Int) :
    Except PyError (Game × Option String) :=
  match ScoreCounter.write_score store with
  | .error e => .error e
  | .ok _ =>
    match g.snake.move with
    | none => .error .indexError
    | some snake1 =>
      match snake1.parts with
      | [] => .error .indexError
      | head :: _ =>
        let x_limit := g.board.width / 2 - 10
        let y_limit := g.board.height / 2 - 10
        match foodPhase g.board.score_counter store snake1 g.board.food
            head.pos x_limit y_limit rx ry with
        | .error e => .error e
        | .ok (sc1, store1, snake2, food1) =>
          let g1 : Game :=
            { board := { g.board with food := food1, score_counter := sc1 },
              snake := snake2, score := g.score }
          if selfCollisionHit snake2.parts head.pos then
            Game.game_over g1 store1
          else if head.pos.1 > x_limit ∨ head.pos.1 < -x_limit ∨
              head.pos.2 > y_limit ∨ head.pos.2 < -y_limit then
            Game.game_over g1 store1
          else
            .ok (g1, store1)

/-- The module-level `game = Game("Angus' Snake Game", "MintCream", 800, 800,
"Courier")`: an 800 by 800 board, food at the origin, score 0, and a fresh
snake. -/
def game : Game :=
  { board := { food := (0, 0), score_counter := { score := 0 },
               width := 800, height := 800 },
    snake := Snake.init, score := 0 }

theorem digitChar_facts : ∀ d : Nat, d < 10 →
    (Char.ofNat (48 + d)).isDigit = true ∧ (Char.ofNat (48 + d)).toNat - 48 = d ∧
    Char.ofNat (48 + d) ≠ '-' := by decide

theorem natDigitsRev_eq_digits : ∀ fuel n : Nat, n ≤ fuel →
    natDigitsRev fuel n = Nat.digits 10 n := by
  intro fuel
  induction fuel with
  | zero =>
    intro n hn
    have : n = 0 := Nat.le_zero.mp hn
    subst this
    simp [natDigitsRev, Nat.digits_zero]
  | succ f ih =>
    intro n hn
    by_cases h0 : n = 0
    · subst h0; simp [natDigitsRev, Nat.digits_zero]
    · rw [natDigitsRev, if_neg h0,
        ih (n / 10) (by
          have := Nat.div_lt_self (Nat.pos_of_ne_zero h0) (by norm_num : 1 < 10)
          omega),
        Nat.digits_def' (by norm_num : 1 < 10) (Nat.pos_of_ne_zero h0)]

theorem foldr_digit_chars (L : List Nat) (hL : ∀ d ∈ L, d < 10) :
    (L.map fun d => Char.ofNat (48 + d)).foldr (fun c a => a * 10 + (c.toNat - 48)) 0
      = Nat.ofDigits 10 L := by
  induction L with
  | nil => rfl
  | cons d t ih =>
    have hd : d < 10 := hL d (List.mem_cons_self d t)
    have ht : ∀ x ∈ t, x < 10 := fun x hx => hL x (List.mem_cons_of_mem d hx)
    simp only [List.map_cons, List.foldr_cons, ih ht, Nat.ofDigits_cons,
      (digitChar_facts d hd).2.1]
    ring

theorem natToDec_data (h : Nat) (h0 : h ≠ 0) :
    (natToDec h).data = (Nat.digits 10 h).reverse.map fun d => Char.ofNat (48 + d) := by
  rw [natToDec, if_neg h0, natDigitsRev_eq_digits h h le_rfl]

theorem splitSign_of_digits (L : List Char) (hne : L ≠ [])
    (hall : L.all Char.isDigit = true) : splitSign L = (false, L) := by
  cases L with
  | nil => exact absurd rfl hne
  | cons c rest =>
    have hc : c.isDigit = true := by
      have := List.all_eq_true.mp hall c (List.mem_cons_self c rest)
      simpa using this
    have hcm : c ≠ '-' := by
      intro e
      rw [e] at hc
      simp [Char.isDigit] at hc
    simp [splitSign, hcm]

theorem decListFacts (h : Nat) (h0 : h ≠ 0) :
    (natToDec h).data ≠ [] ∧ (natToDec h).data.all Char.isDigit = true ∧
      (natToDec h).data.foldl (fun n c => n * 10 + (c.toNat - 48)) 0 = h := by
  have hlt : ∀ d ∈ Nat.digits 10 h, d < 10 :=
    fun d hd => Nat.digits_lt_base (by norm_num) hd
  rw [natToDec_data h h0]
  refine ⟨?_, ?_, ?_⟩
  · simp [Nat.digits_ne_nil_iff_ne_zero, h0]
  · rw [List.all_eq_true]
    intro c hc
    simp only [List.mem_map, List.mem_reverse] at hc
    obtain ⟨d, hd, rfl⟩ := hc
    exact (digitChar_facts d (hlt d hd)).1
  · rw [List.map_reverse, List.foldl_reverse, foldr_digit_chars _ hlt,
      Nat.ofDigits_digits]

theorem shiftAmt_of_lt (fuel m : Nat) (hm : m < 2 ^ 53) : shiftAmt fuel m = 0 := by
  cases fuel with
  | zero => rfl
  | succ f =>
    rw [shiftAmt, if_pos hm]

theorem roundHalfEven_of_lt (n : Nat) (hn : n < 2 ^ 53) : roundHalfEven n = n := by
  rw [roundHalfEven, shiftAmt_of_lt n n hn]
  rfl

theorem pyFloatReadNat_of_lt (n : Nat) (hn : n < 2 ^ 53) : pyFloatReadNat n = .ok n := by
  have hb : ¬ floatOverflowBound ≤ n := by
    rw [floatOverflowBound_eq]
    intro hc
    have h2 : (2 : Nat) ^ 53 ≤ 2 ^ 1024 :=
      Nat.pow_le_pow_right (by norm_num) (by norm_num)
    exact absurd (le_trans h2 hc) (not_le.mpr hn)
  simp only [pyFloatReadNat, roundHalfEven_of_lt n hn]
  rw [if_neg hb]

theorem get_high_score_natToDec (h : Nat) (hh : h < 2 ^ 53) :
    ScoreCounter.get_high_score (some (natToDec h)) = .ok (h : Int) := by
  by_cases h0 : h = 0
  · subst h0; rfl
  · obtain ⟨hne, hall, hfold⟩ := decListFacts h h0
    have hdec : decToNatList? (natToDec h).data = some h := by
      simp [decToNatList?, hne, hall, hfold]
    rw [ScoreCounter.get_high_score, pyParseIntFloat,
      splitSign_of_digits _ hne hall]
    simp [hdec, pyFloatReadNat_of_lt h hh]

theorem pyIndex_neg_one (n : Nat) (hn : n ≠ 0) : pyIndex n (-1) = some (n - 1) := by
  have h1 : ((-1 : Int) < 0) := by norm_num
  simp only [pyIndex, h1, if_true]
  rw [if_pos (by omega : (0 : Int) ≤ -1 + n ∧ -1 + (n : Int) < n)]
  congr 1
  omega

theorem pyIndex_ofNat (n p : Nat) :
    pyIndex n (p : Int) = if p < n then some p else none := by
  have h0 : ¬ ((p : Int) < 0) := by omega
  simp only [pyIndex, h0, if_false]
  by_cases hpn : p < n
  · rw [if_pos (by omega : (0 : Int) ≤ p ∧ (p : Int) < n), if_pos hpn]
    simp
  · rw [if_neg (by omega : ¬ ((0 : Int) ≤ p ∧ (p : Int) < n)), if_neg hpn]

theorem delete_part_last_length (s : Snake) (h : s.parts ≠ []) :
    ∃ t, s.delete_part (-1) = some t ∧ t.parts.length + 1 = s.parts.length := by
  have hn : s.parts.length ≠ 0 := by
    simpa [List.length_eq_zero] using h
  refine ⟨{ s with parts := s.parts.eraseIdx (s.parts.length - 1) }, ?_, ?_⟩
  · rw [Snake.delete_part, pyIndex_neg_one _ hn]
  · have := List.length_eraseIdx_of_lt
      (show s.parts.length - 1 < s.parts.length by omega)
    simp only [this]
    omega

theorem add_del_length (s : Snake) (x y : Int) :
    ((s.add_part x y).delete_part (-1)).map (fun t => t.parts.length)
      = some s.parts.length := by
  obtain ⟨t, ht, hlen⟩ :=
    delete_part_last_length (s.add_part x y) (by simp [Snake.add_part])
  rw [ht, Option.map_some']
  have h2 : (s.add_part x y).parts.length = s.parts.length + 1 := by
    simp [Snake.add_part]
  rw [h2] at hlen
  congr 1
  omega

theorem move_length (s : Snake) (h : s.parts ≠ []) :
    (Snake.move s).map (fun t => t.parts.length) = some s.parts.length := by
  obtain ⟨parts, dir⟩ := s
  cases parts with
  | nil => exact absurd rfl h
  | cons head rest => exact add_del_length ⟨head :: rest, dir⟩ _ _

theorem delete_part_ofNat (s : Snake) (p : Nat) :
    s.delete_part (p : Int) =
      if p < s.parts.length then some { s with parts := s.parts.eraseIdx p }
      else none := by
  rw [Snake.delete_part, pyIndex_ofNat]
  by_cases hpn : p < s.parts.length
  · rw [if_pos hpn, if_pos hpn]
  · rw [if_neg hpn, if_neg hpn]

theorem delete_part_pos_ne_nil (s : Snake) (p : Nat) (hp : 1 ≤ p) (t : Snake)
    (ht : s.delete_part (p : Int) = some t) : t.parts ≠ [] := by
  rw [delete_part_ofNat] at ht
  by_cases hpn : p < s.parts.length
  · rw [if_pos hpn] at ht
    obtain rfl : ({ s with parts := s.parts.eraseIdx p } : Snake) = t :=
      Option.some_injective _ ht
    have hlen := List.length_eraseIdx_of_lt hpn
    intro hnil
    have hnil' : s.parts.eraseIdx p = [] := hnil
    rw [hnil'] at hlen
    simp at hlen
    omega
  · rw [if_neg hpn] at ht
    exact absurd ht (by simp)

theorem resetLoop_ne_nil : ∀ (l : List Nat) (s : Snake),
    (∀ p ∈ l, 1 ≤ p) → s.parts ≠ [] → (resetLoop l s).parts ≠ [] := by
  intro l
  induction l with
  | nil => intro s _ h; exact h
  | cons p rest ih =>
    intro s hl h
    rw [resetLoop]
    apply ih _ (fun q hq => hl q (List.mem_cons_of_mem p hq))
    cases hd : s.delete_part (p : Int) with
    | none => simpa [hd] using h
    | some t =>
      have := delete_part_pos_ne_nil s p (hl p (List.mem_cons_self p rest)) t hd
      simpa [hd] using this

theorem reset_of_ne_nil (s : Snake) (h : s.parts ≠ []) :
    ∃ tl, Snake.reset s
      = some { parts := { pos := (0, 100) } :: tl, direction := .stop } := by
  have hne := resetLoop_ne_nil (List.range' 1 (s.parts.length - 1)) s
    (fun p hp => by
      obtain ⟨i, _, rfl⟩ := List.mem_range'.mp hp
      omega) h
  simp only [Snake.reset]
  cases hp : (resetLoop (List.range' 1 (s.parts.length - 1)) s).parts with
  | nil => exact absurd hp hne
  | cons a tl => exact ⟨tl, rfl⟩

theorem change_score_store_natToDec (delta score0 : Int) (h : Nat)
    (hh : h < 2 ^ 53) :
    ScoreCounter.change_score { score := score0 } (some (natToDec h)) delta =
      .ok ({ score := score0 + delta },
           some (intToDec (max (h : Int) (score0 + delta)))) := by
  simp only [ScoreCounter.change_score, get_high_score_natToDec h hh]
  by_cases hlt : (h : Int) < score0 + delta
  · rw [if_pos hlt, max_eq_right (le_of_lt hlt)]
    rfl
  · rw [if_neg hlt, max_eq_left (not_lt.mp hlt)]
    rfl

theorem foodPhase_taken (sc : ScoreCounter) (store : Option String)
    (snake : Snake) (food head : Pos) (xl yl rx ry v : Int)
    (hv : ScoreCounter.get_high_score store = .ok v)
    (hd : distSq head food < 15 * 15) :
    foodPhase sc store snake food head xl yl rx ry =
      .ok ({ score := sc.score + 10 },
           (if v < sc.score + 10 then ScoreCounter.set_high_score (sc.score + 10)
            else store),
           snake.add_part food.1 food.2,
           Food.teleport (xl - 20) (yl - 20) rx ry) := by
  have hcs : ScoreCounter.change_score sc store 10 =
      .ok ({ score := sc.score + 10 },
           if v < sc.score + 10 then ScoreCounter.set_high_score (sc.score + 10)
           else store) := by
    simp only [ScoreCounter.change_score, hv]
    by_cases hlt : v < sc.score + 10
    · rw [if_pos hlt, if_pos hlt]
    · rw [if_neg hlt, if_neg hlt]
  rw [foodPhase, if_pos hd, hcs]

theorem foodPhase_not_taken (sc : ScoreCounter) (store : Option String)
    (snake : Snake) (food head : Pos) (xl yl rx ry : Int)
    (hd : ¬ (distSq head food < 15 * 15)) :
    foodPhase sc store snake food head xl yl rx ry = .ok (sc, store, snake, food) := by
  rw [foodPhase, if_neg hd]

/-- The game state used as the concrete input for claim C6: food at the
origin, the snake's single part at `(16, 0)` (Euclidean distance 16 from the
food), direction `"stop"`, on the program's 800 by 800 board. -/
def gameNearFood : Game :=
  { board := game.board,
    snake := { parts := [{ pos := (16, 0) }], direction := .stop }, score := 0 }

/-- A three-segment snake heading up: the concrete input for claim C1. -/
def snakeThreeSegments : Snake :=
  { parts := [{ pos := (0, 100) }, { pos := (0, 80) }, { pos := (0, 60) }],
    direction := .up }

/-- C1: claimed that `Snake.reset` always leaves exactly one segment.  On a
three-segment snake the source's `for part in range(1, len(self))` loop
deletes at indices that keep shifting under it and swallows the resulting
`IndexError`, so two segments survive (the head is repositioned to
`(0, 100)` and the direction does become `"stop"`). -/
theorem reset_on_three_segments_leaves_two :
    Snake.reset snakeThreeSegments
      = some { parts := [{ pos := (0, 100) }, { pos := (0, 60) }], direction := .stop }
    ∧ ([{ pos := (0, 100) }, { pos := (0, 60) }] : List SnakePart).length ≠ 1 :=
  ⟨rfl, by decide⟩

/-- C2: claimed that `Game.game_over` completes, zeroing the score and
re-homing the food.  In fact for every game whose snake is nonempty (so that
`snake.reset()` itself survives), `game_over` raises `AttributeError` at
`self.board.score`: class `Board` defines no attribute `score`, so neither
the score reset nor `food.goto(0, 0)` is ever reached. -/
theorem game_over_raises_attribute_error (g : Game) (store : Option String)
    (h : g.snake.parts ≠ []) :
    Game.game_over g store = .error .attributeError := by
  obtain ⟨tl, ht⟩ := reset_of_ne_nil g.snake h
  rw [Game.game_over, ht]

theorem game_over_raises_attribute_error_witness :
    game.snake.parts ≠ [] ∧
    Game.game_over game none = Except.error PyError.attributeError :=
  ⟨by decide, game_over_raises_attribute_error game none (by decide)⟩

/-- C3: the directional input latch never reverses 180 degrees in a single
request (the four axis-pair requests are ignored), and every other request,
including from `"stop"` and repeats of the current direction, is accepted. -/
theorem direction_latch_no_reversal (s : Snake) :
    ((s.direction = .up → (s.go_down).direction = .up)
      ∧ (s.direction = .down → (s.go_up).direction = .down)
      ∧ (s.direction = .left → (s.go_right).direction = .left)
      ∧ (s.direction = .right → (s.go_left).direction = .right))
    ∧ ((s.direction ≠ .down → (s.go_up).direction = .up)
      ∧ (s.direction ≠ .up → (s.go_down).direction = .down)
      ∧ (s.direction ≠ .left → (s.go_right).direction = .right)
      ∧ (s.direction ≠ .right → (s.go_left).direction = .left)) := by
  obtain ⟨parts, dir⟩ := s
  cases dir <;>
    simp [Snake.go_up, Snake.go_down, Snake.go_right, Snake.go_left]

theorem direction_latch_no_reversal_witness :
    (Snake.go_down { parts := [{ pos := (0, 100) }], direction := Direction.up }).direction
      = Direction.up
    ∧ (Snake.go_up { parts := [{ pos := (0, 100) }], direction := Direction.stop }).direction
      = Direction.up :=
  ⟨(direction_latch_no_reversal _).1.1 rfl,
   (direction_latch_no_reversal _).2.1 (by decide)⟩

/-- C4: for every nonempty body and every direction, `Snake.move` preserves
the body length (it inserts a new head and pops the tail), and the growth
step `add_part` increases the length by exactly 1. -/
theorem move_preserves_length_add_part_grows (s : Snake) (x y : Int)
    (h : s.parts ≠ []) :
    (Snake.move s).map (fun t => t.parts.length) = some s.parts.length
    ∧ (s.add_part x y).parts.length = s.parts.length + 1 :=
  ⟨move_length s h, by simp [Snake.add_part]⟩

theorem move_preserves_length_add_part_grows_witness :
    Snake.init.parts ≠ [] ∧
    ((Snake.move Snake.init).map (fun t => t.parts.length) = some Snake.init.parts.length
      ∧ (Snake.init.add_part 5 5).parts.length = Snake.init.parts.length + 1) :=
  ⟨by decide, move_preserves_length_add_part_grows Snake.init 5 5 (by decide)⟩

/-- C5, counterexample: with the stored high score `9007199254740995`
(`2 ^ 53 + 3`, whose decimal string `float`-parses to the *larger* double
`9007199254740996`) and a new current score of `9007199254740996`, the
comparison `self.score > high_score` is false, so the store is left at
`9007199254740995` even though `max(stored, new current)` is
`9007199254740996`: the persisted value is not the claimed maximum. -/
theorem change_score_misses_max_beyond_float_precision :
    ScoreCounter.change_score { score := 9007199254740995 }
        (some (natToDec 9007199254740995)) 1
      = .ok ({ score := 9007199254740996 }, some (natToDec 9007199254740995))
    ∧ some (natToDec 9007199254740995)
        ≠ some (intToDec (max (9007199254740995 : Int) 9007199254740996)) :=
  ⟨rfl, by decide⟩

/-- C5, amended: for every delta, every in-memory score, and every stored
high score below `2 ^ 53` (the range on which `int(float(str(h)))` is
exact), `change_score` re-reads the store, leaves the in-memory score at its
previous value plus delta, and leaves the store holding
`max(stored high score, new current score)`. -/
theorem change_score_updates_score_and_persisted_max (delta score0 : Int)
    (h : Nat) (hh : h < 2 ^ 53) :
    ScoreCounter.change_score { score := score0 } (some (natToDec h)) delta =
      .ok ({ score := score0 + delta },
           some (intToDec (max (h : Int) (score0 + delta)))) :=
  change_score_store_natToDec delta score0 h hh

theorem change_score_updates_score_and_persisted_max_witness :
    (0 : Nat) < 2 ^ 53 ∧
    ScoreCounter.change_score { score := 0 } (some (natToDec 0)) 10 =
      .ok ({ score := 0 + 10 }, some (intToDec (max ((0 : Nat) : Int) (0 + 10)))) :=
  ⟨by norm_num, change_score_updates_score_and_persisted_max 10 0 0 (by norm_num)⟩

/-- C6, counterexample: the head ends the tick at Euclidean distance 16 from
the food, within the claimed step-sized threshold of 20, yet the tick
changes nothing: no score change, no growth, no relocation.  The source
compares `head.distance(food) < 15`, not `< 20`. -/
theorem food_branch_not_taken_at_distance_16 :
    distSq (16, 0) (0, 0) < 20 * 20 ∧
    Game.tick gameNearFood (some "0") 0 0 = .ok (gameNearFood, some "0") :=
  ⟨by decide, rfl⟩

/-- C6, amended: in every game-loop tick (with a readable store, since the
consumption branch re-reads it), the food-consumption branch is taken if and
only if the head-to-food distance is strictly below 15 — the source's
hard-coded threshold, which is smaller than the movement step 20.  When
taken it adds 10 to the score, grows the body at the food's coordinates and
teleports the food; otherwise score, store, body and food are unchanged. -/
theorem food_branch_iff_distance_lt_15 (sc : ScoreCounter) (store : Option String)
    (snake : Snake) (food head : Pos) (xl yl rx ry v : Int)
    (hv : ScoreCounter.get_high_score store = .ok v) :
    (distSq head food < 15 * 15 →
      foodPhase sc store snake food head xl yl rx ry =
        .ok ({ score := sc.score + 10 },
             (if v < sc.score + 10 then ScoreCounter.set_high_score (sc.score + 10)
              else store),
             snake.add_part food.1 food.2,
             Food.teleport (xl - 20) (yl - 20) rx ry))
    ∧ (15 * 15 ≤ distSq head food →
      foodPhase sc store snake food head xl yl rx ry = .ok (sc, store, snake, food)) :=
  ⟨fun hd => foodPhase_taken sc store snake food head xl yl rx ry v hv hd,
   fun hd => foodPhase_not_taken sc store snake food head xl yl rx ry (not_lt.mpr hd)⟩

theorem food_branch_iff_distance_lt_15_witness :
    ScoreCounter.get_high_score (some "0") = .ok 0 ∧
    distSq (0, 0) (0, 0) < 15 * 15 ∧
    foodPhase { score := 0 } (some "0") Snake.init (0, 0) (0, 0) 390 390 5 5 =
      .ok ({ score := (0 : Int) + 10 },
           (if (0 : Int) < 0 + 10 then ScoreCounter.set_high_score (0 + 10)
            else some "0"),
           Snake.init.add_part 0 0,
           Food.teleport (390 - 20) (390 - 20) 5 5) :=
  ⟨rfl, by decide,
   (food_branch_iff_distance_lt_15 { score := 0 } (some "0") Snake.init
      (0, 0) (0, 0) 390 390 5 5 0 rfl).1 (by decide)⟩

/-- C7, counterexample: the round-trip is not the identity on every
non-negative integer, because reading goes through `float`:
`str(9007199254740993)` (`2 ^ 53 + 1`) parses to the double
`9007199254740992`, so reading back returns a different integer. -/
theorem high_score_roundtrip_fails_beyond_float_precision :
    ScoreCounter.get_high_score (ScoreCounter.set_high_score 9007199254740993) =
      .ok 9007199254740992
    ∧ (9007199254740992 : Int) ≠ 9007199254740993 :=
  ⟨rfl, by decide⟩

/-- C7, amended: for every non-negative integer below `2 ^ 53` (the doubles
apart, the exact range of `int(float(str(h)))`), writing with
`set_high_score` and reading with `get_high_score` returns exactly the
written integer. -/
theorem high_score_roundtrip_below_float_precision (h : Nat) (hh : h < 2 ^ 53) :
    ScoreCounter.get_high_score (ScoreCounter.set_high_score (h : Int)) =
      .ok (h : Int) := by
  have hset : ScoreCounter.set_high_score (h : Int) = some (natToDec h) := rfl
  rw [hset]
  exact get_high_score_natToDec h hh

theorem high_score_roundtrip_below_float_precision_witness :
    (42 : Nat) < 2 ^ 53 ∧
    ScoreCounter.get_high_score (ScoreCounter.set_high_score ((42 : Nat) : Int)) =
      .ok ((42 : Nat) : Int) :=
  ⟨by norm_num, high_score_roundtrip_below_float_precision 42 (by norm_num)⟩

/-- C8, counterexample: with the store absent, `get_high_score` does not
yield 0 — it raises (`open` has no surrounding `try`), so the
`FileNotFoundError` propagates. -/
theorem get_high_score_missing_store_does_not_yield_zero :
    ScoreCounter.get_high_score none = .error .fileNotFoundError
    ∧ ScoreCounter.get_high_score none ≠ .ok 0 :=
  ⟨rfl, by decide⟩

/-- C8, amended: an unreadable store is *not* treated as high score 0:
`get_high_score` propagates the failure — `FileNotFoundError` for a missing
file, `ValueError` for non-numeric or empty contents — and therefore so do
`change_score` and `write_score`, which call it unguarded. -/
theorem get_high_score_propagates_store_failures :
    ScoreCounter.get_high_score none = .error .fileNotFoundError
    ∧ ScoreCounter.get_high_score (some "oops") = .error .valueError
    ∧ ScoreCounter.get_high_score (some "") = .error .valueError
    ∧ ScoreCounter.change_score { score := 0 } none 10 = .error .fileNotFoundError
    ∧ ScoreCounter.write_score none = .error .fileNotFoundError :=
  ⟨rfl, rfl, rfl, rfl, rfl⟩

/-- C9: the self-collision scan starts at body index 3, so a body of length
at most 3 is never scanned and never raises a terminal condition, whatever
the segment positions. -/
theorem short_body_never_self_collides (parts : List SnakePart) (head : Pos)
    (h : parts.length ≤ 3) : selfCollisionHit parts head = false := by
  rw [selfCollisionHit, show parts.length - 3 = 0 by omega]
  rfl

theorem short_body_never_self_collides_witness :
    ([{ pos := (0, 0) }, { pos := (0, 0) }, { pos := (0, 0) }] : List SnakePart).length ≤ 3
    ∧ selfCollisionHit [{ pos := (0, 0) }, { pos := (0, 0) }, { pos := (0, 0) }] (0, 0)
      = false :=
  ⟨by decide, short_body_never_self_collides _ _ (by decide)⟩

/-- C10: every relocation the loop performs after a pickup calls
`Food.teleport` with bounds `(x_limit - 20, y_limit - 20)`; under `randint`'s
range contract the new food position satisfies `|x| ≤ x_limit - 20` and
`|y| ≤ y_limit - 20`, strictly inside the board's collision boundary at
`±x_limit`, `±y_limit`. -/
theorem food_relocation_lands_within_margin (sc : ScoreCounter)
    (store : Option String) (snake : Snake) (food head : Pos)
    (xl yl rx ry v : Int)
    (hv : ScoreCounter.get_high_score store = .ok v)
    (hd : distSq head food < 15 * 15)
    (hrx₁ : -(xl - 20) ≤ rx) (hrx₂ : rx ≤ xl - 20)
    (hry₁ : -(yl - 20) ≤ ry) (hry₂ : ry ≤ yl - 20) :
    foodPhase sc store snake food head xl yl rx ry =
      .ok ({ score := sc.score + 10 },
           (if v < sc.score + 10 then ScoreCounter.set_high_score (sc.score + 10)
            else store),
           snake.add_part food.1 food.2,
           Food.teleport (xl - 20) (yl - 20) rx ry)
    ∧ |(Food.teleport (xl - 20) (yl - 20) rx ry).1| ≤ xl - 20
    ∧ |(Food.teleport (xl - 20) (yl - 20) rx ry).2| ≤ yl - 20
    ∧ xl - 20 < xl ∧ yl - 20 < yl :=
  ⟨foodPhase_taken sc store snake food head xl yl rx ry v hv hd,
   abs_le.mpr ⟨hrx₁, hrx₂⟩, abs_le.mpr ⟨hry₁, hry₂⟩, by omega, by omega⟩

theorem food_relocation_lands_within_margin_witness :
    ScoreCounter.get_high_score (some "0") = .ok 0 ∧
    distSq (0, 0) (0, 0) < 15 * 15 ∧
    (-(390 - 20) ≤ (100 : Int) ∧ (100 : Int) ≤ 390 - 20) ∧
    (foodPhase { score := 0 } (some "0") Snake.init (0, 0) (0, 0) 390 390 100 100 =
      .ok ({ score := (0 : Int) + 10 },
           (if (0 : Int) < 0 + 10 then ScoreCounter.set_high_score (0 + 10)
            else some "0"),
           Snake.init.add_part 0 0,
           Food.teleport (390 - 20) (390 - 20) 100 100)
      ∧ |(Food.teleport (390 - 20) (390 - 20) 100 100).1| ≤ 390 - 20
      ∧ |(Food.teleport (390 - 20) (390 - 20) 100 100).2| ≤ 390 - 20
      ∧ (390 : Int) - 20 < 390 ∧ (390 : Int) - 20 < 390) :=
  ⟨rfl, by decide, ⟨by norm_num, by norm_num⟩,
   food_relocation_lands_within_margin { score := 0 } (some "0") Snake.init
     (0, 0) (0, 0) 390 390 100 100 0 rfl (by decide)
     (by norm_num) (by norm_num) (by norm_num) (by norm_num)⟩
